import Mathlib

/-!
# Instance-type resolution of the Azure cloud provider

A shallow embedding of `cluster-autoscaler/cloudprovider/azure/azure_instance.go`:
the static resolver `GetVMSSTypeStatically`, the dynamic resolver
`GetVMSSTypeDynamically` and the promo normalization both of them use.

Conventions of the embedding.

* A Go `string` that holds valid UTF-8 is the list of its runes (`GoString`).
* A Go result pair `(value, err)` is a Lean pair whose second component is
  `none` for a nil error.
* `int64` is `Int`; the one arithmetic operation of the file (`* 1024`) wraps
  modulo `2 ^ 64` (`wrapInt64`).
* Library functions the code calls but does not define (`strings.EqualFold`,
  `skewer.NewCache`) are parameters of the definitions that call them.
-/

namespace AzureInstance

/-- A Go string holding valid UTF-8, as the sequence of its runes. -/
abbrev GoString := List Char

/-! ## Data model -/

/-- Modelled from the spec: the struct `InstanceType`, declared outside the listed
source. Its fields are the three the resolver assigns (`VCPU`, `GPU`, `MemoryMb`,
section 3 of the specification), each an `int64`. -/
structure InstanceType where
  VCPU : Int
  MemoryMb : Int
  GPU : Int
  deriving DecidableEq, Repr

/-- The zero value of `InstanceType` (`var vmssType InstanceType`). -/
def InstanceType.zero : InstanceType := ⟨0, 0, 0⟩

/-- Error values. `external` is an error produced by a collaborator (cache
construction, cache lookup, fact extraction), identified by its text. The other
two are the errors this file builds with `fmt.Errorf`, kept with their operands:
`notSupported name` is `fmt.Errorf("instance type %q not supported", name)` and
`notSupportedCause name err` is
`fmt.Errorf("instance type %q not supported. Error %v", name, err)`. -/
inductive GoError where
  | external (text : GoString)
  | notSupported (name : GoString)
  | notSupportedCause (name : GoString) (cause : GoError)
  deriving DecidableEq, Repr

/-- The text of an error (`err.Error()`). `Quote` is `strconv.Quote`, which the
verb `%q` applies to its operand; `%v` prints the text of the cause. -/
def GoError.Error (Quote : GoString → GoString) : GoError → GoString
  | .external text => text
  | .notSupported name => "instance type ".toList ++ Quote name ++ " not supported".toList
  | .notSupportedCause name cause =>
      "instance type ".toList ++ Quote name ++ " not supported. Error ".toList
        ++ GoError.Error Quote cause

/-! ## The promo pattern `(?i)_promo`

The pattern is a literal of six runes under the flag `i`. The case-folding orbits
of `p`, `r`, `o` and `m` hold only the two ASCII letters, and `_` has no other
case, so the pattern matches exactly the texts `_[pP][rR][oO][mM][oO]`. -/

/-- The pattern `(?i)_promo` matches at the start of the text. -/
def promoPrefix : GoString → Bool
  | c0 :: c1 :: c2 :: c3 :: c4 :: c5 :: _ =>
      c0 == '_' && (c1 == 'p' || c1 == 'P') && (c2 == 'r' || c2 == 'R')
        && (c3 == 'o' || c3 == 'O') && (c4 == 'm' || c4 == 'M')
        && (c5 == 'o' || c5 == 'O')
  | _ => false

/-- `promoRe.MatchString(s)`: the pattern matches somewhere in `s`. -/
def MatchString : GoString → Bool
  | [] => false
  | c :: cs => promoPrefix (c :: cs) || MatchString cs

/-- One left-to-right pass over the text that deletes the matches; `skip` counts the
runes of the current match that are still to be dropped. -/
def replaceAllAux : Nat → GoString → GoString
  | _, [] => []
  | skip + 1, _ :: cs => replaceAllAux skip cs
  | 0, c :: cs =>
      if promoPrefix (c :: cs) then replaceAllAux 5 cs else c :: replaceAllAux 0 cs

/-- `promoRe.ReplaceAllString(s, "")`: the leftmost non-overlapping matches of the
pattern in `s` are deleted, the text between them is kept as it is. -/
def ReplaceAllString (s : GoString) : GoString := replaceAllAux 0 s

/-! ## The static resolver -/

/-- One `for k := range InstanceTypes` loop of `GetVMSSTypeStatically`, started with
`vmssType == nil`: `range` is the sequence of keys in the order the loop visits them,
`InstanceTypes k` is the map access `InstanceTypes[k]` (a pointer, `none` for nil).
The loop stops at the first key that `EqualFold` accepts and yields what is stored
under it. -/
def scanInstanceTypes (EqualFold : GoString → GoString → Bool)
    (InstanceTypes : GoString → Option InstanceType) :
    List GoString → GoString → Option InstanceType
  | [], _ => none
  | k :: rest, name =>
      if EqualFold k name then InstanceTypes k
      else scanInstanceTypes EqualFold InstanceTypes rest name

/-- `GetVMSSTypeStatically`. The catalog is the map `InstanceTypes`; Go leaves the
order of a `range` over a map open, so the orders in which the first and the second
loop visit the keys are the inputs `range1` and `range2`. `name` is
`*template.Sku.Name`. The result is the pair `(*InstanceType, error)`. -/
def GetVMSSTypeStatically (EqualFold : GoString → GoString → Bool)
    (InstanceTypes : GoString → Option InstanceType) (range1 range2 : List GoString)
    (name : GoString) : Option InstanceType × Option GoError :=
  let vmssType := scanInstanceTypes EqualFold InstanceTypes range1 name
  let vmssType :=
    if MatchString name then
      if vmssType = none then
        let skuName := ReplaceAllString name
        scanInstanceTypes EqualFold InstanceTypes range2 skuName
      else vmssType
    else vmssType
  if vmssType = none then (vmssType, some (GoError.notSupported name))
  else (vmssType, none)

/-- The part of `strings.EqualFold` on ASCII text: two texts are equal when they have
the same length and agree rune by rune up to the case of the letters `A` to `Z`. It
is the instance of `EqualFold` used at concrete, ASCII inputs. -/
def asciiEqualFold : GoString → GoString → Bool
  | [], [] => true
  | a :: s, b :: t => (a.toLower == b.toLower) && asciiEqualFold s t
  | _, _ => false

/-! ## The dynamic resolver -/

/-- The value of an `int64` computation: the result modulo `2 ^ 64`, read as a
signed number. -/
def wrapInt64 (z : Int) : Int := (z + 2 ^ 63) % 2 ^ 64 - 2 ^ 63

/-- The conversion `int64(f)` of a finite `float64`, given as the rational it
denotes: the fraction is discarded (truncation toward zero). For a value outside
the range of `int64` the Go specification leaves the result to the implementation;
the value produced on amd64 (`-2 ^ 63`) is taken. -/
def float64ToInt64 (f : ℚ) : Int :=
  let t := Int.tdiv f.num f.den
  if -(2 ^ 63) ≤ t ∧ t < 2 ^ 63 then t else -(2 ^ 63)

/-- A `skewer.SKU` descriptor, as the resolver observes it: the result pairs of the
three extraction calls `sku.VCPU()`, `getGpuFromSku(sku)` and `sku.Memory()`. The
helper `getGpuFromSku` is a function of the descriptor that is declared outside the
listed source; its result is recorded with the descriptor. A memory value is a
finite `float64`, given as the rational it denotes. -/
structure SKU where
  VCPU : Int × Option GoError
  GPU : Int × Option GoError
  Memory : ℚ × Option GoError

/-- A `skewer.Cache`: `Get name resourceType location` is
`cache.Get(ctx, name, resourceType, location)`, a deterministic function of its
three arguments. -/
structure Cache where
  Get : GoString → GoString → GoString → SKU × Option GoError

/-- The constant `skewer.VirtualMachines`. -/
def VirtualMachines : GoString := "virtualMachines".toList

/-- The fields of `compute.VirtualMachineScaleSet` that the resolver reads:
`*template.Sku.Name` and `*template.Location`. -/
structure Template where
  SkuName : GoString
  Location : GoString

/-- The calls to collaborators, in the order in which the resolver makes them. -/
inductive Call where
  | NewCache (location : GoString)
  | Get (name resourceType location : GoString)
  | VCPU
  | getGpuFromSku
  | Memory
  deriving DecidableEq, Repr

/-- What a call of `GetVMSSTypeDynamically` yields: the returned pair
`(InstanceType, error)` and the calls it made to its collaborators. -/
structure DynamicResult where
  vmssType : InstanceType
  err : Option GoError
  calls : List Call
  deriving DecidableEq, Repr

/-- The extraction steps of `GetVMSSTypeDynamically` on the located descriptor `sku`,
from `vmssType.VCPU, err = sku.VCPU()` to the final `return vmssType, nil`;
`calls` are the calls made before. The assignment of the first step stores the value
returned by `sku.VCPU()` before the error is inspected. -/
def extractFacts (sku : SKU) (vmssType : InstanceType) (calls : List Call) :
    DynamicResult :=
  let vmssType := { vmssType with VCPU := sku.VCPU.1 }
  let calls := calls ++ [Call.VCPU]
  match sku.VCPU.2 with
  | some err => ⟨vmssType, some err, calls⟩
  | none =>
    let gpu := sku.GPU.1
    let calls := calls ++ [Call.getGpuFromSku]
    match sku.GPU.2 with
    | some err => ⟨vmssType, some err, calls⟩
    | none =>
      let vmssType := { vmssType with GPU := gpu }
      let memoryGb := sku.Memory.1
      let calls := calls ++ [Call.Memory]
      match sku.Memory.2 with
      | some err => ⟨vmssType, some err, calls⟩
      | none =>
        let vmssType :=
          { vmssType with MemoryMb := wrapInt64 (float64ToInt64 memoryGb * 1024) }
        ⟨vmssType, none, calls⟩

/-- `GetVMSSTypeDynamically`. `NewCache location` is
`skewer.NewCache(ctx, skewer.WithLocation(location), skewer.WithResourceClient(skuClient))`
for the client the resolver was given. -/
def GetVMSSTypeDynamically (NewCache : GoString → Cache × Option GoError)
    (template : Template) : DynamicResult :=
  let vmssType := InstanceType.zero
  let cache := (NewCache template.Location).1
  let calls := [Call.NewCache template.Location]
  match (NewCache template.Location).2 with
  | some err => ⟨vmssType, some err, calls⟩
  | none =>
    let sku := (cache.Get template.SkuName VirtualMachines template.Location).1
    let calls := calls ++ [Call.Get template.SkuName VirtualMachines template.Location]
    match (cache.Get template.SkuName VirtualMachines template.Location).2 with
    | none => extractFacts sku vmssType calls
    | some _ =>
      let skuName := ReplaceAllString template.SkuName
      let sku := (cache.Get skuName VirtualMachines template.Location).1
      let calls := calls ++ [Call.Get skuName VirtualMachines template.Location]
      match (cache.Get skuName VirtualMachines template.Location).2 with
      | some err =>
          ⟨vmssType, some (GoError.notSupportedCause template.SkuName err), calls⟩
      | none => extractFacts sku vmssType calls

/-- The lookup of `GetVMSSTypeDynamically` locates the descriptor `sku`: the cache is
constructed and either the lookup of the exact name hits `sku`, or it fails and the
lookup of the promo-stripped name hits `sku`. -/
def Located (NewCache : GoString → Cache × Option GoError) (template : Template)
    (sku : SKU) : Prop :=
  (NewCache template.Location).2 = none ∧
    (((NewCache template.Location).1.Get template.SkuName VirtualMachines
          template.Location = (sku, none)) ∨
      (((NewCache template.Location).1.Get template.SkuName VirtualMachines
            template.Location).2 ≠ none ∧
        (NewCache template.Location).1.Get (ReplaceAllString template.SkuName)
          VirtualMachines template.Location = (sku, none)))

/-- The calls `GetVMSSTypeDynamically` makes up to the end of its lookup when the
cache is constructed: the construction, the lookup of the exact name and, when that
one fails, the lookup of the promo-stripped name. -/
def lookupCalls (NewCache : GoString → Cache × Option GoError) (template : Template) :
    List Call :=
  [Call.NewCache template.Location,
    Call.Get template.SkuName VirtualMachines template.Location]
  ++ (if ((NewCache template.Location).1.Get template.SkuName VirtualMachines
            template.Location).2 = none then []
      else [Call.Get (ReplaceAllString template.SkuName) VirtualMachines
              template.Location])

/-! ## The lookup procedure of the specification -/

/-- The unguarded lookup procedure, run on the catalog, written from the words of the
specification: look up the name and, on a miss, look up the name with all `_promo`
matches removed; fail with the not-supported error for the name when both miss.
It is the procedure `GetVMSSTypeStatically` is compared with; `range` is the one
order in which the catalog is scanned. -/
def unguardedLookup (EqualFold : GoString → GoString → Bool)
    (InstanceTypes : GoString → Option InstanceType) (range : List GoString)
    (name : GoString) : Option InstanceType × Option GoError :=
  match scanInstanceTypes EqualFold InstanceTypes range name with
  | some found => (some found, none)
  | none =>
    match scanInstanceTypes EqualFold InstanceTypes range (ReplaceAllString name) with
    | some found => (some found, none)
    | none => (none, some (GoError.notSupported name))

/-- The call is a cache lookup (`cache.Get`). -/
def Call.isGet : Call → Bool
  | .Get _ _ _ => true
  | _ => false

/-! ## Concrete collaborators used at the concrete inputs -/

/-- A descriptor with 4 vCPUs, no GPU and 16 gigabytes. -/
def skuD4 : SKU := ⟨(4, none), (0, none), (16, none)⟩

/-- The descriptor returned next to a lookup error (`skewer.SKU{}`); it is never
inspected. -/
def skuEmpty : SKU := ⟨(0, none), (0, none), (0, none)⟩

/-- A cache that knows the one SKU `Standard_D4s_v3`, whatever the region. -/
def cacheD4 : Cache :=
  ⟨fun name _ _ =>
    if name = "Standard_D4s_v3".toList then (skuD4, none)
    else (skuEmpty, some (GoError.external "not found".toList))⟩

/-- A catalog with two keys that differ in the case of their letters only and store
different instance types. -/
def catalogTwoCasings : GoString → Option InstanceType := fun k =>
  if k = "Standard_A1".toList then some ⟨1, 2048, 0⟩
  else if k = "standard_a1".toList then some ⟨1, 1024, 0⟩
  else none

/-- A descriptor with 8 vCPUs, no GPU and 32 gigabytes. -/
def skuD8 : SKU := ⟨(8, none), (0, none), (32, none)⟩

/-- A cache that knows the promo SKU `Standard_D4s_v3_Promo` and, with another
descriptor, the standard SKU `Standard_D4s_v3`. -/
def cachePromoAndStandard : Cache :=
  ⟨fun name _ _ =>
    if name = "Standard_D4s_v3_Promo".toList then (skuD4, none)
    else if name = "Standard_D4s_v3".toList then (skuD8, none)
    else (skuEmpty, some (GoError.external "not found".toList))⟩

/-- A cache that knows the promo SKU `Standard_D4s_v3_Promo` only. -/
def cachePromoOnly : Cache :=
  ⟨fun name _ _ =>
    if name = "Standard_D4s_v3_Promo".toList then (skuD4, none)
    else (skuEmpty, some (GoError.external "not found".toList))⟩

/-- A cache in which every lookup hits the descriptor `sku`. -/
def cacheOf (sku : SKU) : Cache := ⟨fun _ _ _ => (sku, none)⟩

/-! ## Texts with their matches marked -/

/-- A text given with its matches marked: each pair is a piece of text followed by
one match, `last` is the text after the final match. `weaveMatches` is the text
itself. -/
def weaveMatches : List (GoString × GoString) → GoString → GoString
  | [], last => last
  | (piece, p) :: rest, last => piece ++ p ++ weaveMatches rest last

/-- The pieces of a marked text joined, every marked match left out. -/
def joinPieces : List (GoString × GoString) → GoString → GoString
  | [], last => last
  | (piece, _) :: rest, last => piece ++ joinPieces rest last

/-! ## Lemmas on the promo pattern -/

/-- A text that is one match of the pattern: six runes, `_promo` in some casing. -/
def promoCasing (p : GoString) : Prop := p.length = 6 ∧ promoPrefix p = true

instance (p : GoString) : Decidable (promoCasing p) := by
  unfold promoCasing; infer_instance

theorem promoPrefix_append_of_casing {p : GoString} (hp : promoCasing p) (b : GoString) :
    promoPrefix (p ++ b) = true := by
  obtain ⟨hlen, hpre⟩ := hp
  match p, hlen, hpre with
  | [_, _, _, _, _, _], _, hpre => simpa [promoPrefix] using hpre

theorem head_of_casing {p : GoString} (hp : promoCasing p) :
    ∃ c1 c2 c3 c4 c5, p = ['_', c1, c2, c3, c4, c5] := by
  obtain ⟨hlen, hpre⟩ := hp
  match p, hlen, hpre with
  | [c0, c1, c2, c3, c4, c5], _, hpre =>
    simp only [promoPrefix, Bool.and_eq_true, beq_iff_eq] at hpre
    exact ⟨c1, c2, c3, c4, c5, by rw [hpre.1.1.1.1.1]⟩

theorem MatchString_cons_false {c : Char} {cs : GoString}
    (h : MatchString (c :: cs) = false) :
    promoPrefix (c :: cs) = false ∧ MatchString cs = false := by
  simpa [MatchString] using h

theorem ReplaceAllString_of_no_match {s : GoString} (h : MatchString s = false) :
    ReplaceAllString s = s := by
  unfold ReplaceAllString
  induction s with
  | nil => rfl
  | cons c cs ih =>
    obtain ⟨h1, h2⟩ := MatchString_cons_false h
    simp [replaceAllAux, h1, ih h2]

/-- The rune `_` is none of the letters of the pattern, so a match cannot start
inside the first five runes before an inserted match unless it already is a match
of the text without the insertion. -/
theorem promoPrefix_insert_false {c : Char} {a p b : GoString} (hp : promoCasing p)
    (h : promoPrefix (c :: a ++ b) = false) :
    promoPrefix (c :: a ++ p ++ b) = false := by
  obtain ⟨c1, c2, c3, c4, c5, rfl⟩ := head_of_casing hp
  match a, h with
  | [], _ => simp [promoPrefix]
  | [_], _ => simp [promoPrefix]
  | [_, _], _ => simp [promoPrefix]
  | [_, _, _], _ => simp [promoPrefix]
  | [_, _, _, _], _ => simp [promoPrefix]
  | _ :: _ :: _ :: _ :: _ :: _, h => simpa [promoPrefix] using h

theorem MatchString_insert {p : GoString} (hp : promoCasing p) (a b : GoString) :
    MatchString (a ++ p ++ b) = true := by
  induction a with
  | nil =>
    have := promoPrefix_append_of_casing hp b
    obtain ⟨c1, c2, c3, c4, c5, rfl⟩ := head_of_casing hp
    simp only [List.nil_append, List.cons_append] at this ⊢
    simp [MatchString, this]
  | cons c a ih =>
    have : MatchString (a ++ p ++ b) = true := ih
    simp only [List.cons_append, List.append_assoc] at this ⊢
    simp [MatchString, this]

/-- Deleting the matches of a text that is a promo-free text with one match inserted
gives the promo-free text back. -/
theorem ReplaceAllString_insert {p : GoString} (hp : promoCasing p) (a b : GoString)
    (hfree : MatchString (a ++ b) = false) :
    ReplaceAllString (a ++ p ++ b) = a ++ b := by
  induction a with
  | nil =>
    have hb : MatchString b = false := by simpa using hfree
    have hpre := promoPrefix_append_of_casing hp b
    obtain ⟨c1, c2, c3, c4, c5, rfl⟩ := head_of_casing hp
    have hb2 := ReplaceAllString_of_no_match hb
    unfold ReplaceAllString at hb2 ⊢
    simp only [List.nil_append, List.cons_append] at hpre ⊢
    simp only [replaceAllAux, hpre, if_true]
    exact hb2
  | cons c a ih =>
    have hfree2 : MatchString (c :: (a ++ b)) = false := by simpa using hfree
    obtain ⟨h1, h2⟩ := MatchString_cons_false hfree2
    have hno : promoPrefix (c :: a ++ p ++ b) = false :=
      promoPrefix_insert_false hp (by simpa using h1)
    have ih2 := ih h2
    unfold ReplaceAllString at ih2 ⊢
    simp only [List.cons_append, List.append_assoc] at hno ih2 ⊢
    simp [replaceAllAux, hno, ih2]

/-! ## Lemmas on the scan of the catalog -/

theorem scanInstanceTypes_of_no_key (EqualFold : GoString → GoString → Bool)
    (InstanceTypes : GoString → Option InstanceType) (range : List GoString)
    (name : GoString) (h : ∀ k ∈ range, EqualFold k name = false) :
    scanInstanceTypes EqualFold InstanceTypes range name = none := by
  induction range with
  | nil => rfl
  | cons k rest ih =>
    have hk : EqualFold k name = false := h k (List.mem_cons_self _ _)
    have hrest : ∀ k ∈ rest, EqualFold k name = false :=
      fun x hx => h x (List.mem_cons_of_mem _ hx)
    simp [scanInstanceTypes, hk, ih hrest]

/-- A scan that meets an accepted key yields what is stored under the first such key
of the order. -/
theorem scanInstanceTypes_of_key (EqualFold : GoString → GoString → Bool)
    (InstanceTypes : GoString → Option InstanceType) (range : List GoString)
    (name : GoString) (h : ∃ k ∈ range, EqualFold k name = true) :
    ∃ k ∈ range, EqualFold k name = true ∧
      scanInstanceTypes EqualFold InstanceTypes range name = InstanceTypes k := by
  induction range with
  | nil => simp at h
  | cons k rest ih =>
    by_cases hk : EqualFold k name = true
    · exact ⟨k, List.mem_cons_self _ _, hk, by simp [scanInstanceTypes, hk]⟩
    · have hrest : ∃ k ∈ rest, EqualFold k name = true := by
        obtain ⟨x, hx, hxe⟩ := h
        rcases List.mem_cons.mp hx with rfl | hx
        · exact absurd hxe hk
        · exact ⟨x, hx, hxe⟩
      obtain ⟨x, hx, hxe, hscan⟩ := ih hrest
      exact ⟨x, List.mem_cons_of_mem _ hx, hxe, by simp [scanInstanceTypes, hk, hscan]⟩

/-! ## The static resolver: exact match, promo fallback, failure -/

/-- C1 (amended): for every catalog and every SKU name `name` such that some catalog
key equals `name` under `EqualFold`, and every such key stores a non-nil
`InstanceType`, `GetVMSSTypeStatically` returns, with a nil error, the `InstanceType`
stored under a key that equals `name` under `EqualFold` (the first one the scan
meets). Nothing is assumed of `name`: it may contain `_promo`, the exact match wins
over the promo-stripped fallback. -/
theorem static_exact_match (EqualFold : GoString → GoString → Bool)
    (InstanceTypes : GoString → Option InstanceType) (range1 range2 : List GoString)
    (name : GoString) (hkey : ∃ k ∈ range1, EqualFold k name = true)
    (hval : ∀ k ∈ range1, EqualFold k name = true → InstanceTypes k ≠ none) :
    ∃ k ∈ range1, EqualFold k name = true ∧
      GetVMSSTypeStatically EqualFold InstanceTypes range1 range2 name
        = (InstanceTypes k, none) := by
  obtain ⟨k, hk, hke, hscan⟩ :=
    scanInstanceTypes_of_key EqualFold InstanceTypes range1 name hkey
  have hne : InstanceTypes k ≠ none := hval k hk hke
  refine ⟨k, hk, hke, ?_⟩
  simp [GetVMSSTypeStatically, hscan, hne]

/-- Witness of C1 (amended): the key `Standard_D2s_v3` answers the query
`STANDARD_D2S_V3`. -/
theorem static_exact_match_witness :
    ∃ k ∈ ["Standard_D2s_v3".toList], asciiEqualFold k "STANDARD_D2S_V3".toList = true ∧
      GetVMSSTypeStatically asciiEqualFold (fun _ => some ⟨2, 8192, 0⟩)
        ["Standard_D2s_v3".toList] ["Standard_D2s_v3".toList] "STANDARD_D2S_V3".toList
        = ((fun _ => some ⟨2, 8192, 0⟩) k, none) :=
  static_exact_match asciiEqualFold (fun _ => some ⟨2, 8192, 0⟩)
    ["Standard_D2s_v3".toList] ["Standard_D2s_v3".toList] "STANDARD_D2S_V3".toList
    (by decide) (by intro k _ _; simp)

/-- Counterexample to C1 as stated: the catalog holds the key `Standard_D2s_v3` with a
nil pointer stored under it; the query `Standard_D2s_v3` equals that key, yet the
resolver returns a nil result and the not-supported error. -/
theorem static_exact_match_nil_entry :
    (∃ k ∈ ["Standard_D2s_v3".toList],
        asciiEqualFold k "Standard_D2s_v3".toList = true) ∧
      GetVMSSTypeStatically asciiEqualFold (fun _ => none)
        ["Standard_D2s_v3".toList] ["Standard_D2s_v3".toList] "Standard_D2s_v3".toList
        = (none, some (GoError.notSupported "Standard_D2s_v3".toList)) := by
  decide

/-- C2 (amended): let `n` be a catalog key that contains no match of `_promo`, that
stores a non-nil `InstanceType`, and such that every key equal to `n` under
`EqualFold` stores the same `InstanceType`. Let the query be `n` with `_promo`, in
any letter casing, inserted at any position (`a ++ p ++ b` with `n = a ++ b`; a
suffix when `b` is empty), and let no catalog key equal the query under `EqualFold`.
Then `GetVMSSTypeStatically` returns the `InstanceType` stored under `n` with a nil
error. -/
theorem static_promo_fallback (EqualFold : GoString → GoString → Bool)
    (InstanceTypes : GoString → Option InstanceType) (range1 range2 : List GoString)
    (n a p b : GoString) (hn : n ∈ range2) (hsplit : n = a ++ b)
    (hp : promoCasing p) (hfree : MatchString n = false)
    (hrefl : EqualFold n n = true)
    (hmiss : ∀ k ∈ range1, EqualFold k (a ++ p ++ b) = false)
    (hsame : ∀ k ∈ range2, EqualFold k n = true → InstanceTypes k = InstanceTypes n)
    (hnn : InstanceTypes n ≠ none) :
    GetVMSSTypeStatically EqualFold InstanceTypes range1 range2 (a ++ p ++ b)
      = (InstanceTypes n, none) := by
  have h1 := scanInstanceTypes_of_no_key EqualFold InstanceTypes range1 (a ++ p ++ b) hmiss
  have h2 : MatchString (a ++ p ++ b) = true := MatchString_insert hp a b
  have h3 : ReplaceAllString (a ++ p ++ b) = n := by
    rw [hsplit]; exact ReplaceAllString_insert hp a b (hsplit ▸ hfree)
  obtain ⟨k, hk, hke, hscan⟩ :=
    scanInstanceTypes_of_key EqualFold InstanceTypes range2 n ⟨n, hn, hrefl⟩
  have h4 : scanInstanceTypes EqualFold InstanceTypes range2 n = InstanceTypes n := by
    rw [hscan, hsame k hk hke]
  simp only [GetVMSSTypeStatically, h1, h2, h3, h4]
  simp [hnn]

/-- Witness of C2 (amended): the query `Standard_D2s_v3_Promo` is answered from the
key `Standard_D2s_v3`. -/
theorem static_promo_fallback_witness :
    GetVMSSTypeStatically asciiEqualFold (fun _ => some ⟨2, 8192, 0⟩)
        ["Standard_D2s_v3".toList] ["Standard_D2s_v3".toList]
        ("Standard_D2s_v3".toList ++ "_Promo".toList ++ [])
      = (some ⟨2, 8192, 0⟩, none) :=
  static_promo_fallback asciiEqualFold (fun _ => some ⟨2, 8192, 0⟩)
    ["Standard_D2s_v3".toList] ["Standard_D2s_v3".toList]
    "Standard_D2s_v3".toList "Standard_D2s_v3".toList "_Promo".toList []
    (by decide) (by decide) (by decide) (by decide) (by decide) (by decide)
    (by intro k _ _; rfl) (by simp)

/-- Counterexample to C2 as stated: the only catalog key is `Standard_NC6_Promo`; the
query `Standard_NC6_Promo_Promo` is that key with `_Promo` added as a suffix and no
key equals it; stripping removes both matches, no key equals `Standard_NC6`, and the
resolver fails instead of returning what is stored under the key. -/
theorem static_promo_fallback_promo_key :
    "Standard_NC6_Promo_Promo".toList = "Standard_NC6_Promo".toList ++ "_Promo".toList ∧
      (∀ k ∈ ["Standard_NC6_Promo".toList],
        asciiEqualFold k "Standard_NC6_Promo_Promo".toList = false) ∧
      GetVMSSTypeStatically asciiEqualFold
        (fun k => if k = "Standard_NC6_Promo".toList then some ⟨6, 57344, 1⟩ else none)
        ["Standard_NC6_Promo".toList] ["Standard_NC6_Promo".toList]
        "Standard_NC6_Promo_Promo".toList
        = (none, some (GoError.notSupported "Standard_NC6_Promo_Promo".toList)) := by
  decide

/-- C3: for every catalog and every SKU name `name` such that no catalog key equals
`name` under `EqualFold` and no catalog key equals the name with the `_promo` matches
removed, `GetVMSSTypeStatically` returns a nil `InstanceType` and the error
`fmt.Errorf("instance type %q not supported", name)`: its operand is the original
name, and its text is `instance type `, the quoted original name, ` not supported`. -/
theorem static_not_supported (EqualFold : GoString → GoString → Bool)
    (InstanceTypes : GoString → Option InstanceType) (range1 range2 : List GoString)
    (name : GoString) (h1 : ∀ k ∈ range1, EqualFold k name = false)
    (h2 : ∀ k ∈ range2, EqualFold k (ReplaceAllString name) = false) :
    GetVMSSTypeStatically EqualFold InstanceTypes range1 range2 name
        = (none, some (GoError.notSupported name)) ∧
      ∀ Quote : GoString → GoString,
        (GetVMSSTypeStatically EqualFold InstanceTypes range1 range2 name).2.map
            (GoError.Error Quote)
          = some ("instance type ".toList ++ Quote name ++ " not supported".toList) := by
  have e1 := scanInstanceTypes_of_no_key EqualFold InstanceTypes range1 name h1
  have e2 := scanInstanceTypes_of_no_key EqualFold InstanceTypes range2
    (ReplaceAllString name) h2
  have hres : GetVMSSTypeStatically EqualFold InstanceTypes range1 range2 name
      = (none, some (GoError.notSupported name)) := by
    simp [GetVMSSTypeStatically, e1, e2]
  refine ⟨hres, fun Quote => ?_⟩
  rw [hres]; rfl

/-- Witness of C3: neither `Standard_X9_Promo` nor `Standard_X9` is in a catalog whose
only key is `Standard_D2s_v3`. -/
theorem static_not_supported_witness :
    GetVMSSTypeStatically asciiEqualFold (fun _ => some ⟨2, 8192, 0⟩)
        ["Standard_D2s_v3".toList] ["Standard_D2s_v3".toList] "Standard_X9_Promo".toList
      = (none, some (GoError.notSupported "Standard_X9_Promo".toList)) :=
  (static_not_supported asciiEqualFold (fun _ => some ⟨2, 8192, 0⟩)
    ["Standard_D2s_v3".toList] ["Standard_D2s_v3".toList] "Standard_X9_Promo".toList
    (by decide) (by decide)).1

/-! ## Lemmas on the dynamic resolver -/

theorem wrapInt64_of_range {z : Int} (h1 : -(2 ^ 63) ≤ z) (h2 : z < 2 ^ 63) :
    wrapInt64 z = z := by
  unfold wrapInt64; omega

theorem tdiv_eq_floor {m : ℚ} (h0 : 0 ≤ m) : Int.tdiv m.num m.den = ⌊m⌋ := by
  rw [Int.tdiv_eq_ediv (Rat.num_nonneg.mpr h0) (Int.natCast_nonneg _), ← Rat.floor_def']
  rfl

theorem float64ToInt64_of_nonneg {m : ℚ} (h0 : 0 ≤ m) (h1 : m < 2 ^ 63) :
    float64ToInt64 m = ⌊m⌋ := by
  have hf0 : (0 : Int) ≤ ⌊m⌋ := Int.floor_nonneg.mpr h0
  have hf1 : ⌊m⌋ < 2 ^ 63 := by
    rw [Int.floor_lt]; exact_mod_cast h1
  unfold float64ToInt64
  simp only [tdiv_eq_floor h0]
  rw [if_pos ⟨by omega, hf1⟩]

/-- Below `2 ^ 53` gigabytes the product by 1024 stays inside `int64`. -/
theorem memoryMb_of_range {m : ℚ} (h0 : 0 ≤ m) (h1 : m < 2 ^ 53) :
    wrapInt64 (float64ToInt64 m * 1024) = ⌊m⌋ * 1024 := by
  have hf0 : (0 : Int) ≤ ⌊m⌋ := Int.floor_nonneg.mpr h0
  have hf1 : ⌊m⌋ < 2 ^ 53 := by
    rw [Int.floor_lt]; exact_mod_cast h1
  have h2 : m < 2 ^ 63 := lt_trans h1 (by norm_num)
  rw [float64ToInt64_of_nonneg h0 h2]
  exact wrapInt64_of_range (by omega) (by omega)

/-- A located descriptor: the resolver is its extraction steps run on the descriptor,
after the calls of the lookup. -/
theorem GetVMSSTypeDynamically_of_located
    (NewCache : GoString → Cache × Option GoError) (template : Template) (sku : SKU)
    (h : Located NewCache template sku) :
    GetVMSSTypeDynamically NewCache template
      = extractFacts sku InstanceType.zero (lookupCalls NewCache template) := by
  obtain ⟨hc, hhit | ⟨hmiss, hhit⟩⟩ := h
  · simp [GetVMSSTypeDynamically, lookupCalls, hc, hhit]
  · obtain ⟨e, he⟩ := Option.ne_none_iff_exists'.mp hmiss
    simp [GetVMSSTypeDynamically, lookupCalls, hc, hhit, he]

/-- The returned pair of the extraction steps does not depend on the calls made
before them. -/
theorem extractFacts_pair (sku : SKU) (vmssType : InstanceType) (c1 c2 : List Call) :
    (extractFacts sku vmssType c1).vmssType = (extractFacts sku vmssType c2).vmssType ∧
      (extractFacts sku vmssType c1).err = (extractFacts sku vmssType c2).err := by
  unfold extractFacts
  cases sku.VCPU.2 <;> cases sku.GPU.2 <;> cases sku.Memory.2 <;> simp

/-! ## The dynamic resolver: successful resolution -/

/-- C4 (amended): for every template whose cache is constructed and whose lookup
locates a descriptor yielding vCPU count `v`, GPU count `g` and memory `m` gigabytes
without extraction error, with `0 ≤ m < 2 ^ 53` (so that the product by 1024 fits
`int64`), `GetVMSSTypeDynamically` returns with a nil error the `InstanceType`
`{VCPU: v, GPU: g, MemoryMb: ⌊m⌋ * 1024}`: the gigabyte value is truncated to an
integer before it is multiplied by 1024. -/
theorem dynamic_resolution (NewCache : GoString → Cache × Option GoError)
    (template : Template) (sku : SKU) (v g : Int) (m : ℚ)
    (hloc : Located NewCache template sku)
    (hv : sku.VCPU = (v, none)) (hg : sku.GPU = (g, none)) (hm : sku.Memory = (m, none))
    (h0 : 0 ≤ m) (hfit : m < 2 ^ 53) :
    (GetVMSSTypeDynamically NewCache template).vmssType
        = { VCPU := v, MemoryMb := ⌊m⌋ * 1024, GPU := g } ∧
      (GetVMSSTypeDynamically NewCache template).err = none := by
  rw [GetVMSSTypeDynamically_of_located NewCache template sku hloc]
  simp [extractFacts, hv, hg, hm, memoryMb_of_range h0 hfit, InstanceType.zero]

/-- Witness of C4 (amended): a descriptor with 4 vCPUs, no GPU and 7.5 gigabytes
resolves to 7168 megabytes (`7 * 1024`), not to 7680. -/
theorem dynamic_resolution_witness :
    (GetVMSSTypeDynamically
        (fun _ => (⟨fun _ _ _ => (⟨(4, none), (0, none), (15 / 2, none)⟩, none)⟩, none))
        ⟨"Standard_D4s_v3".toList, "westeurope".toList⟩).vmssType
      = { VCPU := 4, MemoryMb := 7168, GPU := 0 } := by
  have h := (dynamic_resolution
    (fun _ => (⟨fun _ _ _ => (⟨(4, none), (0, none), (15 / 2, none)⟩, none)⟩, none))
    ⟨"Standard_D4s_v3".toList, "westeurope".toList⟩
    ⟨(4, none), (0, none), (15 / 2, none)⟩ 4 0 (15 / 2)
    ⟨rfl, Or.inl rfl⟩ rfl rfl rfl (by norm_num) (by norm_num)).1
  have hfloor : ⌊(15 / 2 : ℚ)⌋ = 7 := by norm_num [Int.floor_eq_iff]
  rw [hfloor] at h
  exact h

/-- Counterexample to C4 as stated: a descriptor with 4 vCPUs, no GPU and
`2 ^ 53` gigabytes (a `float64` value) is resolved with a nil error to
`MemoryMb = -2 ^ 63`: the `int64` product `2 ^ 53 * 1024` wraps around, where the
claim gives `trunc(m) * 1024 = 2 ^ 63`. -/
theorem dynamic_resolution_overflow :
    (GetVMSSTypeDynamically
        (fun _ => (⟨fun _ _ _ => (⟨(4, none), (0, none), (2 ^ 53, none)⟩, none)⟩, none))
        ⟨"Standard_D4s_v3".toList, "westeurope".toList⟩).vmssType
        = { VCPU := 4, MemoryMb := -(2 ^ 63), GPU := 0 } ∧
      (GetVMSSTypeDynamically
        (fun _ => (⟨fun _ _ _ => (⟨(4, none), (0, none), (2 ^ 53, none)⟩, none)⟩, none))
        ⟨"Standard_D4s_v3".toList, "westeurope".toList⟩).err = none ∧
      ⌊(2 ^ 53 : ℚ)⌋ * 1024 = (2 ^ 63 : Int) := by
  refine ⟨?_, ?_, ?_⟩
  · simp [GetVMSSTypeDynamically, extractFacts, float64ToInt64, wrapInt64,
      InstanceType.zero]
  · simp [GetVMSSTypeDynamically, extractFacts]
  · have h : ⌊(((2 : Int) ^ 53 : Int) : ℚ)⌋ = (2 : Int) ^ 53 := Int.floor_intCast _
    have h2 : (2 ^ 53 : ℚ) = (((2 : Int) ^ 53 : Int) : ℚ) := by norm_num
    rw [h2, h]; norm_num

/-! ## The dynamic resolver: the fallback path -/

/-- C5: for every cache and every template with SKU name `s`, if the lookup of `s`
fails and the lookup of the promo-stripped name succeeds, `GetVMSSTypeDynamically`
on the template returns the same `(InstanceType, error)` pair as on the same template
with the promo-stripped name. -/
theorem dynamic_fallback_consistent (NewCache : GoString → Cache × Option GoError)
    (template : Template)
    (hmiss : ((NewCache template.Location).1.Get template.SkuName VirtualMachines
        template.Location).2 ≠ none)
    (hhit : ((NewCache template.Location).1.Get (ReplaceAllString template.SkuName)
        VirtualMachines template.Location).2 = none) :
    ((GetVMSSTypeDynamically NewCache template).vmssType,
        (GetVMSSTypeDynamically NewCache template).err)
      = ((GetVMSSTypeDynamically NewCache
            { template with SkuName := ReplaceAllString template.SkuName }).vmssType,
          (GetVMSSTypeDynamically NewCache
            { template with SkuName := ReplaceAllString template.SkuName }).err) := by
  obtain ⟨e, he⟩ := Option.ne_none_iff_exists'.mp hmiss
  cases hc : (NewCache template.Location).2 with
  | some err => simp [GetVMSSTypeDynamically, hc]
  | none =>
    simp only [GetVMSSTypeDynamically, hc, he, hhit]
    have h := extractFacts_pair
      ((NewCache template.Location).1.Get (ReplaceAllString template.SkuName)
        VirtualMachines template.Location).1 InstanceType.zero
      ([Call.NewCache template.Location] ++
          [Call.Get template.SkuName VirtualMachines template.Location] ++
        [Call.Get (ReplaceAllString template.SkuName) VirtualMachines template.Location])
      ([Call.NewCache template.Location] ++
        [Call.Get (ReplaceAllString template.SkuName) VirtualMachines template.Location])
    exact Prod.ext h.1 h.2

/-- Witness of C5: `Standard_D4s_v3_Promo` misses, `Standard_D4s_v3` hits, and both
templates resolve to the same pair. -/
theorem dynamic_fallback_consistent_witness :
    ((GetVMSSTypeDynamically (fun _ => (cacheD4, none))
          ⟨"Standard_D4s_v3_Promo".toList, "westeurope".toList⟩).vmssType,
        (GetVMSSTypeDynamically (fun _ => (cacheD4, none))
          ⟨"Standard_D4s_v3_Promo".toList, "westeurope".toList⟩).err)
      = ((GetVMSSTypeDynamically (fun _ => (cacheD4, none))
            ⟨ReplaceAllString "Standard_D4s_v3_Promo".toList, "westeurope".toList⟩).vmssType,
          (GetVMSSTypeDynamically (fun _ => (cacheD4, none))
            ⟨ReplaceAllString "Standard_D4s_v3_Promo".toList, "westeurope".toList⟩).err) :=
  dynamic_fallback_consistent (fun _ => (cacheD4, none))
    ⟨"Standard_D4s_v3_Promo".toList, "westeurope".toList⟩ (by decide) (by decide)

/-- C6: for every template with SKU name `s` whose cache is constructed, if the lookup
of `s` fails and the lookup of the promo-stripped name fails with error `e`,
`GetVMSSTypeDynamically` returns the zero `InstanceType` and the error
`fmt.Errorf("instance type %q not supported. Error %v", s, e)`, which names the
original `s` and ends with the text of `e`; the calls made are the construction of
the cache and the two lookups, no extraction call. -/
theorem dynamic_both_miss (NewCache : GoString → Cache × Option GoError)
    (template : Template) (e : GoError)
    (hc : (NewCache template.Location).2 = none)
    (h1 : ((NewCache template.Location).1.Get template.SkuName VirtualMachines
        template.Location).2 ≠ none)
    (h2 : ((NewCache template.Location).1.Get (ReplaceAllString template.SkuName)
        VirtualMachines template.Location).2 = some e) :
    GetVMSSTypeDynamically NewCache template
        = ⟨InstanceType.zero, some (GoError.notSupportedCause template.SkuName e),
            [Call.NewCache template.Location,
              Call.Get template.SkuName VirtualMachines template.Location,
              Call.Get (ReplaceAllString template.SkuName) VirtualMachines
                template.Location]⟩ ∧
      ∀ Quote : GoString → GoString,
        (GetVMSSTypeDynamically NewCache template).err.map (GoError.Error Quote)
          = some ("instance type ".toList ++ Quote template.SkuName
              ++ " not supported. Error ".toList ++ GoError.Error Quote e) := by
  obtain ⟨e1, he1⟩ := Option.ne_none_iff_exists'.mp h1
  have hres : GetVMSSTypeDynamically NewCache template
      = ⟨InstanceType.zero, some (GoError.notSupportedCause template.SkuName e),
          [Call.NewCache template.Location,
            Call.Get template.SkuName VirtualMachines template.Location,
            Call.Get (ReplaceAllString template.SkuName) VirtualMachines
              template.Location]⟩ := by
    simp [GetVMSSTypeDynamically, hc, he1, h2]
  refine ⟨hres, fun Quote => ?_⟩
  rw [hres]; rfl

/-- Witness of C6: neither `Standard_X9_Promo` nor `Standard_X9` is known to the
cache. -/
theorem dynamic_both_miss_witness :
    GetVMSSTypeDynamically (fun _ => (cacheD4, none))
        ⟨"Standard_X9_Promo".toList, "westeurope".toList⟩
      = ⟨InstanceType.zero,
          some (GoError.notSupportedCause "Standard_X9_Promo".toList
            (GoError.external "not found".toList)),
          [Call.NewCache "westeurope".toList,
            Call.Get "Standard_X9_Promo".toList VirtualMachines "westeurope".toList,
            Call.Get (ReplaceAllString "Standard_X9_Promo".toList) VirtualMachines
              "westeurope".toList]⟩ :=
  (dynamic_both_miss (fun _ => (cacheD4, none))
    ⟨"Standard_X9_Promo".toList, "westeurope".toList⟩
    (GoError.external "not found".toList) rfl (by decide) (by decide)).1

/-! ## The dynamic resolver: failure of the cache construction -/

/-- C7: for every template, if constructing the cache fails with error `e`,
`GetVMSSTypeDynamically` returns the zero `InstanceType` and `e` itself, unchanged;
the only call made is the construction, no lookup. An `e` produced by the
collaborator is therefore never the `instance type ... not supported` error of a
lookup miss. -/
theorem dynamic_cache_construction_failure
    (NewCache : GoString → Cache × Option GoError) (template : Template) (e : GoError)
    (hc : (NewCache template.Location).2 = some e) :
    GetVMSSTypeDynamically NewCache template
        = ⟨InstanceType.zero, some e, [Call.NewCache template.Location]⟩ ∧
      ∀ text, e = GoError.external text → ∀ name cause,
        (GetVMSSTypeDynamically NewCache template).err
          ≠ some (GoError.notSupportedCause name cause) := by
  have hres : GetVMSSTypeDynamically NewCache template
      = ⟨InstanceType.zero, some e, [Call.NewCache template.Location]⟩ := by
    simp [GetVMSSTypeDynamically, hc]
  refine ⟨hres, ?_⟩
  intro text ht name cause
  rw [hres, ht]
  simp

/-- Witness of C7: the construction fails with `no credentials`. -/
theorem dynamic_cache_construction_failure_witness :
    GetVMSSTypeDynamically
        (fun _ => (cacheD4, some (GoError.external "no credentials".toList)))
        ⟨"Standard_D4s_v3".toList, "westeurope".toList⟩
      = ⟨InstanceType.zero, some (GoError.external "no credentials".toList),
          [Call.NewCache "westeurope".toList]⟩ :=
  (dynamic_cache_construction_failure
    (fun _ => (cacheD4, some (GoError.external "no credentials".toList)))
    ⟨"Standard_D4s_v3".toList, "westeurope".toList⟩
    (GoError.external "no credentials".toList) rfl).1

/-! ## The dynamic resolver: failure of an extraction step -/

/-- C8 (amended): for every located descriptor, if one of the three extraction steps
(vCPU, then GPU, then memory) fails, the call returns that step's error at once and
the later steps are not run. The `InstanceType` returned next to the error is not
reset: it holds the value `sku.VCPU()` returned (also when that step is the failing
one), the GPU count when the memory step is the failing one, and zero elsewhere. -/
theorem extraction_fail_fast (NewCache : GoString → Cache × Option GoError)
    (template : Template) (sku : SKU) (e : GoError)
    (hloc : Located NewCache template sku) :
    (sku.VCPU.2 = some e →
        GetVMSSTypeDynamically NewCache template
          = ⟨⟨sku.VCPU.1, 0, 0⟩, some e,
              lookupCalls NewCache template ++ [Call.VCPU]⟩) ∧
      (sku.VCPU.2 = none → sku.GPU.2 = some e →
        GetVMSSTypeDynamically NewCache template
          = ⟨⟨sku.VCPU.1, 0, 0⟩, some e,
              lookupCalls NewCache template ++ [Call.VCPU, Call.getGpuFromSku]⟩) ∧
      (sku.VCPU.2 = none → sku.GPU.2 = none → sku.Memory.2 = some e →
        GetVMSSTypeDynamically NewCache template
          = ⟨⟨sku.VCPU.1, 0, sku.GPU.1⟩, some e,
              lookupCalls NewCache template
                ++ [Call.VCPU, Call.getGpuFromSku, Call.Memory]⟩) := by
  rw [GetVMSSTypeDynamically_of_located NewCache template sku hloc]
  refine ⟨fun hv => ?_, fun hv hg => ?_, fun hv hg hm => ?_⟩
  · simp [extractFacts, hv, InstanceType.zero]
  · simp [extractFacts, hv, hg, InstanceType.zero]
  · simp [extractFacts, hv, hg, hm, InstanceType.zero]

/-- Witness of C8 (amended): the memory step fails after 4 vCPUs and 1 GPU were
read. -/
theorem extraction_fail_fast_witness :
    GetVMSSTypeDynamically
        (fun _ => (cacheOf ⟨(4, none), (1, none),
          (0, some (GoError.external "bad MemoryGB".toList))⟩, none))
        ⟨"Standard_NC6".toList, "westeurope".toList⟩
      = ⟨⟨4, 0, 1⟩, some (GoError.external "bad MemoryGB".toList),
          [Call.NewCache "westeurope".toList,
            Call.Get "Standard_NC6".toList VirtualMachines "westeurope".toList,
            Call.VCPU, Call.getGpuFromSku, Call.Memory]⟩ :=
  (extraction_fail_fast
    (fun _ => (cacheOf ⟨(4, none), (1, none),
      (0, some (GoError.external "bad MemoryGB".toList))⟩, none))
    ⟨"Standard_NC6".toList, "westeurope".toList⟩
    ⟨(4, none), (1, none), (0, some (GoError.external "bad MemoryGB".toList))⟩
    (GoError.external "bad MemoryGB".toList) ⟨rfl, Or.inl rfl⟩).2.2 rfl rfl rfl

/-- Counterexample to C8 as stated: the GPU step fails after the vCPU step read 4; the
`InstanceType` returned next to the error has `VCPU = 4`, it is not the zero value. -/
theorem extraction_partial_instance_type :
    (GetVMSSTypeDynamically
        (fun _ => (cacheOf ⟨(4, none), (0, some (GoError.external "bad GPUs".toList)),
          (16, none)⟩, none))
        ⟨"Standard_NC6".toList, "westeurope".toList⟩).err
        = some (GoError.external "bad GPUs".toList) ∧
      (GetVMSSTypeDynamically
        (fun _ => (cacheOf ⟨(4, none), (0, some (GoError.external "bad GPUs".toList)),
          (16, none)⟩, none))
        ⟨"Standard_NC6".toList, "westeurope".toList⟩).vmssType = ⟨4, 0, 0⟩ ∧
      (GetVMSSTypeDynamically
        (fun _ => (cacheOf ⟨(4, none), (0, some (GoError.external "bad GPUs".toList)),
          (16, none)⟩, none))
        ⟨"Standard_NC6".toList, "westeurope".toList⟩).vmssType ≠ InstanceType.zero := by
  decide

/-- C9 (amended): for every located descriptor on which extracting the vCPU count,
the GPU count or the memory fails with cause `e` (the first step that fails),
`GetVMSSTypeDynamically` fails with `e` itself, returned unchanged: the cause is not
wrapped in an `instance type ... not supported` error and the returned error does
not carry the SKU name. -/
theorem extraction_error_unwrapped (NewCache : GoString → Cache × Option GoError)
    (template : Template) (sku : SKU) (e : GoError)
    (hloc : Located NewCache template sku)
    (hfail : sku.VCPU.2 = some e ∨ (sku.VCPU.2 = none ∧ sku.GPU.2 = some e) ∨
      (sku.VCPU.2 = none ∧ sku.GPU.2 = none ∧ sku.Memory.2 = some e)) :
    (GetVMSSTypeDynamically NewCache template).err = some e := by
  rw [GetVMSSTypeDynamically_of_located NewCache template sku hloc]
  rcases hfail with hv | ⟨hv, hg⟩ | ⟨hv, hg, hm⟩
  · simp [extractFacts, hv]
  · simp [extractFacts, hv, hg]
  · simp [extractFacts, hv, hg, hm]

/-- Witness of C9 (amended): the GPU step fails with `bad GPUs` on a descriptor found
through the promo fallback. -/
theorem extraction_error_unwrapped_witness :
    (GetVMSSTypeDynamically
        (fun _ => (⟨fun name _ _ =>
          if name = "Standard_NC6".toList then
            (⟨(6, none), (0, some (GoError.external "bad GPUs".toList)), (56, none)⟩, none)
          else (skuEmpty, some (GoError.external "not found".toList))⟩, none))
        ⟨"Standard_NC6_Promo".toList, "westeurope".toList⟩).err
      = some (GoError.external "bad GPUs".toList) :=
  extraction_error_unwrapped
    (fun _ => (⟨fun name _ _ =>
      if name = "Standard_NC6".toList then
        (⟨(6, none), (0, some (GoError.external "bad GPUs".toList)), (56, none)⟩, none)
      else (skuEmpty, some (GoError.external "not found".toList))⟩, none))
    ⟨"Standard_NC6_Promo".toList, "westeurope".toList⟩
    ⟨(6, none), (0, some (GoError.external "bad GPUs".toList)), (56, none)⟩
    (GoError.external "bad GPUs".toList)
    ⟨rfl, Or.inr ⟨by decide, by rfl⟩⟩ (Or.inr (Or.inl ⟨rfl, rfl⟩))

/-- Counterexample to C9 as stated: the vCPU step fails with cause `bad vCPUs` on the
located descriptor of `Standard_NC6`; the returned error is that cause alone, not the
not-supported error built from the SKU name and the cause. -/
theorem extraction_error_without_name :
    (GetVMSSTypeDynamically
        (fun _ => (cacheOf ⟨(-1, some (GoError.external "bad vCPUs".toList)),
          (0, none), (56, none)⟩, none))
        ⟨"Standard_NC6".toList, "westeurope".toList⟩).err
        = some (GoError.external "bad vCPUs".toList) ∧
      (GetVMSSTypeDynamically
        (fun _ => (cacheOf ⟨(-1, some (GoError.external "bad vCPUs".toList)),
          (0, none), (56, none)⟩, none))
        ⟨"Standard_NC6".toList, "westeurope".toList⟩).err
        ≠ some (GoError.notSupportedCause "Standard_NC6".toList
            (GoError.external "bad vCPUs".toList)) := by
  decide

/-! ## The promo normalization -/

/-- A match that starts `_` cannot begin inside the five runes before another match,
and a match that begins six or more runes before it does not depend on what follows:
where the text without the following match has no match, the text with it has
none. -/
theorem promoPrefix_before_match {c : Char} {a p : GoString} (hp : promoCasing p)
    (b b' : GoString) (h : promoPrefix (c :: a ++ b) = false) :
    promoPrefix (c :: a ++ p ++ b') = false := by
  obtain ⟨c1, c2, c3, c4, c5, rfl⟩ := head_of_casing hp
  match a, h with
  | [], _ => simp [promoPrefix]
  | [_], _ => simp [promoPrefix]
  | [_, _], _ => simp [promoPrefix]
  | [_, _, _], _ => simp [promoPrefix]
  | [_, _, _, _], _ => simp [promoPrefix]
  | _ :: _ :: _ :: _ :: _ :: _, h => simpa [promoPrefix] using h

theorem MatchString_append_right {a b : GoString} (h : MatchString (a ++ b) = false) :
    MatchString b = false := by
  induction a with
  | nil => simpa using h
  | cons c a ih =>
    have h2 : MatchString (c :: (a ++ b)) = false := by simpa using h
    exact ih (MatchString_cons_false h2).2

/-- A match at the start of a piece is a match of every text the piece starts. -/
theorem promoPrefix_append_true {a : GoString} (b : GoString)
    (h : promoPrefix a = true) : promoPrefix (a ++ b) = true := by
  match a, h with
  | _ :: _ :: _ :: _ :: _ :: _ :: _, h => simpa [promoPrefix] using h

/-- The pass over a piece followed by a match: the piece is kept, the match is
dropped, the pass goes on behind the match. -/
theorem replaceAllAux_piece {p : GoString} (hp : promoCasing p)
    (a rest rest' : GoString) (hfree : MatchString (a ++ rest') = false)
    (hrest : replaceAllAux 0 rest = rest') :
    replaceAllAux 0 (a ++ p ++ rest) = a ++ rest' := by
  induction a with
  | nil =>
    have hpre := promoPrefix_append_of_casing hp rest
    obtain ⟨c1, c2, c3, c4, c5, rfl⟩ := head_of_casing hp
    simp only [List.nil_append, List.cons_append] at hpre ⊢
    simp only [replaceAllAux, hpre, if_true]
    exact hrest
  | cons c a ih =>
    have hfree2 : MatchString (c :: (a ++ rest')) = false := by simpa using hfree
    obtain ⟨h1, h2⟩ := MatchString_cons_false hfree2
    have hno : promoPrefix (c :: a ++ p ++ rest) = false :=
      promoPrefix_before_match hp rest' rest (by simpa using h1)
    have ih2 := ih h2
    simp only [List.cons_append, List.append_assoc] at hno ih2 ⊢
    simp [replaceAllAux, hno, ih2]

/-- Deleting the matches of a marked text whose joined pieces hold no match gives the
joined pieces. -/
theorem ReplaceAllString_weaveMatches (segs : List (GoString × GoString))
    (last : GoString) (hp : ∀ seg ∈ segs, promoCasing seg.2)
    (hfree : MatchString (joinPieces segs last) = false) :
    ReplaceAllString (weaveMatches segs last) = joinPieces segs last := by
  induction segs with
  | nil => exact ReplaceAllString_of_no_match hfree
  | cons seg rest ih =>
    obtain ⟨piece, p⟩ := seg
    have hp1 : promoCasing p := hp (piece, p) (List.mem_cons_self _ _)
    have hp2 : ∀ seg ∈ rest, promoCasing seg.2 :=
      fun x hx => hp x (List.mem_cons_of_mem _ hx)
    have hfree1 : MatchString (piece ++ joinPieces rest last) = false := hfree
    have hfree2 : MatchString (joinPieces rest last) = false :=
      MatchString_append_right hfree1
    exact replaceAllAux_piece hp1 piece (weaveMatches rest last) (joinPieces rest last)
      hfree1 (ih hp2 hfree2)

theorem ReplaceAllString_marks_bounded (n : Nat) :
    ∀ s : GoString, s.length ≤ n →
      ∃ segs last, s = weaveMatches segs last ∧
        (∀ seg ∈ segs, MatchString seg.1 = false ∧ promoCasing seg.2) ∧
        MatchString last = false ∧
        ReplaceAllString s = joinPieces segs last := by
  induction n with
  | zero =>
    intro s hs
    have : s = [] := List.length_eq_zero.mp (Nat.le_zero.mp hs)
    subst this
    exact ⟨[], [], rfl, by simp, rfl, rfl⟩
  | succ n ih =>
    intro s hs
    match s, hs with
    | [], _ => exact ⟨[], [], rfl, by simp, rfl, rfl⟩
    | c :: cs, hs =>
      have hcs : cs.length ≤ n := by simpa using hs
      cases hpre : promoPrefix (c :: cs) with
      | true =>
        match cs, hcs, hpre with
        | c1 :: c2 :: c3 :: c4 :: c5 :: rest, hcs, hpre =>
          obtain ⟨segs, last, hw, hsegs, hlast, hrep⟩ :=
            ih rest (by simp at hcs; omega)
          refine ⟨([], [c, c1, c2, c3, c4, c5]) :: segs, last, ?_, ?_, hlast, ?_⟩
          · simp [weaveMatches, ← hw]
          · intro seg hseg
            rcases List.mem_cons.mp hseg with rfl | hseg
            · exact ⟨rfl, rfl, by simpa [promoPrefix] using hpre⟩
            · exact hsegs seg hseg
          · unfold ReplaceAllString at hrep ⊢
            simp only [replaceAllAux, hpre, if_true]
            simpa [joinPieces] using hrep
      | false =>
        obtain ⟨segs, last, hw, hsegs, hlast, hrep⟩ := ih cs hcs
        have hstep : ReplaceAllString (c :: cs) = c :: ReplaceAllString cs := by
          unfold ReplaceAllString
          simp [replaceAllAux, hpre]
        match segs, hw, hsegs, hrep with
        | [], hw, _, hrep =>
          have hw2 : cs = last := hw
          refine ⟨[], c :: last, by simp [weaveMatches, hw2], by simp, ?_, ?_⟩
          · have : promoPrefix (c :: last) = false := by rw [← hw2]; exact hpre
            simp [MatchString, this, hlast]
          · rw [hstep, hrep]; rfl
        | (piece, p) :: rest, hw, hsegs, hrep =>
          have hpiece := hsegs (piece, p) (List.mem_cons_self _ _)
          refine ⟨(c :: piece, p) :: rest, last, ?_, ?_, hlast, ?_⟩
          · rw [hw]; simp [weaveMatches]
          · intro seg hseg
            rcases List.mem_cons.mp hseg with rfl | hseg
            · refine ⟨?_, hpiece.2⟩
              have hnot : promoPrefix (c :: piece) = false := by
                cases hq : promoPrefix (c :: piece) with
                | false => rfl
                | true =>
                  have := promoPrefix_append_true (p ++ weaveMatches rest last) hq
                  rw [hw] at hpre
                  simp only [weaveMatches, List.cons_append, List.append_assoc] at hpre this
                  rw [this] at hpre
                  exact absurd hpre (by simp)
              simp [MatchString, hnot, hpiece.1]
            · exact hsegs seg (List.mem_cons_of_mem _ hseg)
          · rw [hstep, hrep]; rfl

/-- Every text is a marked text whose pieces hold no match, so that the marked
matches are all the matches of the text; deleting the matches gives the joined
pieces. -/
theorem ReplaceAllString_marks (s : GoString) :
    ∃ segs last, s = weaveMatches segs last ∧
      (∀ seg ∈ segs, MatchString seg.1 = false ∧ promoCasing seg.2) ∧
      MatchString last = false ∧
      ReplaceAllString s = joinPieces segs last :=
  ReplaceAllString_marks_bounded s.length s (Nat.le_refl _)

/-- C10 (amended): for every SKU name `s`, the normalization
`promoRe.ReplaceAllString(s, "")` removes all occurrences of `_promo` present in `s`:
`s` is pieces of text that hold no occurrence, separated by its occurrences, and the
stripped name is the pieces joined. Whenever joining the pieces forms no new
occurrence, that is, whenever `s` is a name free of `_promo` with any number of
`_promo`, in any letter casing, inserted at any positions, the stripped name is that
promo-free name: it contains no occurrence of `_promo`, and stripping it again
changes nothing. -/
theorem promo_strip_removes_all (s : GoString) :
    (∃ segs last, s = weaveMatches segs last ∧
        (∀ seg ∈ segs, MatchString seg.1 = false ∧ promoCasing seg.2) ∧
        MatchString last = false ∧
        ReplaceAllString s = joinPieces segs last) ∧
      ∀ segs last, s = weaveMatches segs last →
        (∀ seg ∈ segs, promoCasing seg.2) →
        MatchString (joinPieces segs last) = false →
        ReplaceAllString s = joinPieces segs last ∧
          MatchString (ReplaceAllString s) = false ∧
          ReplaceAllString (ReplaceAllString s) = ReplaceAllString s := by
  refine ⟨ReplaceAllString_marks s, ?_⟩
  intro segs last hs hp hfree
  have h : ReplaceAllString s = joinPieces segs last := by
    rw [hs]; exact ReplaceAllString_weaveMatches segs last hp hfree
  rw [h]
  exact ⟨rfl, hfree, ReplaceAllString_of_no_match hfree⟩

/-- Witness of C10 (amended): both occurrences of `Standard_Promo_D2s_v3_PROMO` are
removed, the stripped name is `Standard_D2s_v3`. -/
theorem promo_strip_removes_all_witness :
    ReplaceAllString "Standard_Promo_D2s_v3_PROMO".toList = "Standard_D2s_v3".toList ∧
      MatchString (ReplaceAllString "Standard_Promo_D2s_v3_PROMO".toList) = false ∧
      ReplaceAllString (ReplaceAllString "Standard_Promo_D2s_v3_PROMO".toList)
        = ReplaceAllString "Standard_Promo_D2s_v3_PROMO".toList :=
  (promo_strip_removes_all "Standard_Promo_D2s_v3_PROMO".toList).2
    [("Standard".toList, "_Promo".toList), ("_D2s_v3".toList, "_PROMO".toList)] []
    (by decide) (by decide) (by decide)

/-- Counterexample to C10 as stated: deleting the one match of `_pro_promomo` joins
the text around it into `_promo`; the stripped name contains an occurrence and
stripping it again gives the empty name. -/
theorem promo_strip_leaves_occurrence :
    ReplaceAllString "_pro_promomo".toList = "_promo".toList ∧
      MatchString (ReplaceAllString "_pro_promomo".toList) = true ∧
      ReplaceAllString (ReplaceAllString "_pro_promomo".toList)
        ≠ ReplaceAllString "_pro_promomo".toList := by
  decide

/-! ## The static resolver: iteration order, comparison with the specification -/

/-- Two orders of the same keys give the same scan when all accepted keys store the
same value. -/
theorem scanInstanceTypes_perm (EqualFold : GoString → GoString → Bool)
    (InstanceTypes : GoString → Option InstanceType) (r r' : List GoString)
    (name : GoString) (hperm : r.Perm r')
    (hsame : ∀ k ∈ r, ∀ k' ∈ r, EqualFold k name = true → EqualFold k' name = true →
      InstanceTypes k = InstanceTypes k') :
    scanInstanceTypes EqualFold InstanceTypes r name
      = scanInstanceTypes EqualFold InstanceTypes r' name := by
  by_cases h : ∃ k ∈ r, EqualFold k name = true
  · have h' : ∃ k ∈ r', EqualFold k name = true := by
      obtain ⟨k, hk, hke⟩ := h
      exact ⟨k, hperm.mem_iff.mp hk, hke⟩
    obtain ⟨k, hk, hke, hscan⟩ := scanInstanceTypes_of_key EqualFold InstanceTypes r name h
    obtain ⟨k', hk', hke', hscan'⟩ :=
      scanInstanceTypes_of_key EqualFold InstanceTypes r' name h'
    rw [hscan, hscan']
    exact hsame k hk k' (hperm.mem_iff.mpr hk') hke hke'
  · have hno : ∀ k ∈ r, EqualFold k name = false := by
      intro k hk
      cases hke : EqualFold k name with
      | false => rfl
      | true => exact absurd ⟨k, hk, hke⟩ h
    have hno' : ∀ k ∈ r', EqualFold k name = false :=
      fun k hk => hno k (hperm.mem_iff.mpr hk)
    rw [scanInstanceTypes_of_no_key EqualFold InstanceTypes r name hno,
      scanInstanceTypes_of_no_key EqualFold InstanceTypes r' name hno']

/-- A scan that yields a value yields what is stored under an accepted key. -/
theorem scanInstanceTypes_some (EqualFold : GoString → GoString → Bool)
    (InstanceTypes : GoString → Option InstanceType) (range : List GoString)
    (name : GoString) (found : InstanceType)
    (h : scanInstanceTypes EqualFold InstanceTypes range name = some found) :
    ∃ k ∈ range, EqualFold k name = true ∧ InstanceTypes k = some found := by
  by_cases hex : ∃ k ∈ range, EqualFold k name = true
  · obtain ⟨k, hk, hke, hscan⟩ :=
      scanInstanceTypes_of_key EqualFold InstanceTypes range name hex
    exact ⟨k, hk, hke, by rw [← hscan, h]⟩
  · have hno : ∀ k ∈ range, EqualFold k name = false := by
      intro k hk
      cases hke : EqualFold k name with
      | false => rfl
      | true => exact absurd ⟨k, hk, hke⟩ hex
    rw [scanInstanceTypes_of_no_key EqualFold InstanceTypes range name hno] at h
    exact absurd h (by simp)

/-- C11 (amended): for every static catalog with key set `keys` and every SKU name
such that all keys equal to the name under `EqualFold` store the same `InstanceType`,
and so do all keys equal to the promo-stripped name, the pair returned by
`GetVMSSTypeStatically` is the same for every order in which the two range loops
visit the keys. -/
theorem static_deterministic (EqualFold : GoString → GoString → Bool)
    (InstanceTypes : GoString → Option InstanceType)
    (keys range1 range2 range1' range2' : List GoString) (name : GoString)
    (h1 : range1.Perm keys) (h2 : range2.Perm keys)
    (h1' : range1'.Perm keys) (h2' : range2'.Perm keys)
    (hname : ∀ k ∈ keys, ∀ k' ∈ keys, EqualFold k name = true →
      EqualFold k' name = true → InstanceTypes k = InstanceTypes k')
    (hstripped : ∀ k ∈ keys, ∀ k' ∈ keys,
      EqualFold k (ReplaceAllString name) = true →
      EqualFold k' (ReplaceAllString name) = true →
      InstanceTypes k = InstanceTypes k') :
    GetVMSSTypeStatically EqualFold InstanceTypes range1 range2 name
      = GetVMSSTypeStatically EqualFold InstanceTypes range1' range2' name := by
  have e1 : scanInstanceTypes EqualFold InstanceTypes range1 name
      = scanInstanceTypes EqualFold InstanceTypes range1' name :=
    scanInstanceTypes_perm EqualFold InstanceTypes range1 range1' name
      (h1.trans h1'.symm)
      (fun k hk k' hk' => hname k (h1.mem_iff.mp hk) k' (h1.mem_iff.mp hk'))
  have e2 : scanInstanceTypes EqualFold InstanceTypes range2 (ReplaceAllString name)
      = scanInstanceTypes EqualFold InstanceTypes range2' (ReplaceAllString name) :=
    scanInstanceTypes_perm EqualFold InstanceTypes range2 range2' (ReplaceAllString name)
      (h2.trans h2'.symm)
      (fun k hk k' hk' => hstripped k (h2.mem_iff.mp hk) k' (h2.mem_iff.mp hk'))
  simp only [GetVMSSTypeStatically, e1, e2]

/-- Witness of C11 (amended): two keys that differ in case store the same value; the
query `STANDARD_A1` gets the same answer in both orders. -/
theorem static_deterministic_witness :
    GetVMSSTypeStatically asciiEqualFold (fun _ => some ⟨1, 2048, 0⟩)
        ["Standard_A1".toList, "standard_a1".toList]
        ["Standard_A1".toList, "standard_a1".toList] "STANDARD_A1".toList
      = GetVMSSTypeStatically asciiEqualFold (fun _ => some ⟨1, 2048, 0⟩)
        ["standard_a1".toList, "Standard_A1".toList]
        ["standard_a1".toList, "Standard_A1".toList] "STANDARD_A1".toList :=
  static_deterministic asciiEqualFold (fun _ => some ⟨1, 2048, 0⟩)
    ["Standard_A1".toList, "standard_a1".toList]
    ["Standard_A1".toList, "standard_a1".toList]
    ["Standard_A1".toList, "standard_a1".toList]
    ["standard_a1".toList, "Standard_A1".toList]
    ["standard_a1".toList, "Standard_A1".toList] "STANDARD_A1".toList
    (List.Perm.refl _) (List.Perm.refl _) (List.Perm.swap _ _ _) (List.Perm.swap _ _ _)
    (fun _ _ _ _ _ _ => rfl) (fun _ _ _ _ _ _ => rfl)

/-- Counterexample to C11 as stated: the catalog holds the keys `Standard_A1` and
`standard_a1` with different instance types; for the query `STANDARD_A1` the two
orders of the keys give different results. -/
theorem static_order_dependent :
    List.Perm ["standard_a1".toList, "Standard_A1".toList]
        ["Standard_A1".toList, "standard_a1".toList] ∧
      GetVMSSTypeStatically asciiEqualFold catalogTwoCasings
        ["Standard_A1".toList, "standard_a1".toList]
        ["Standard_A1".toList, "standard_a1".toList] "STANDARD_A1".toList
        = (some ⟨1, 2048, 0⟩, none) ∧
      GetVMSSTypeStatically asciiEqualFold catalogTwoCasings
        ["standard_a1".toList, "Standard_A1".toList]
        ["standard_a1".toList, "Standard_A1".toList] "STANDARD_A1".toList
        = (some ⟨1, 1024, 0⟩, none) :=
  ⟨List.Perm.swap _ _ _, by decide, by decide⟩

/-- C13: with one scan order for both loops, `GetVMSSTypeStatically`, which strips
only when the pattern matches the name, returns for every catalog and every SKU name
the result of the unguarded procedure: look up the name and, on a miss, look up the
name with all `_promo` matches removed, failing with the not-supported error for the
name when both miss. -/
theorem static_eq_unguardedLookup (EqualFold : GoString → GoString → Bool)
    (InstanceTypes : GoString → Option InstanceType) (range : List GoString)
    (name : GoString) :
    GetVMSSTypeStatically EqualFold InstanceTypes range range name
      = unguardedLookup EqualFold InstanceTypes range name := by
  cases hm : MatchString name with
  | true =>
    cases h1 : scanInstanceTypes EqualFold InstanceTypes range name with
    | some found => simp [GetVMSSTypeStatically, unguardedLookup, hm, h1]
    | none =>
      cases h2 : scanInstanceTypes EqualFold InstanceTypes range (ReplaceAllString name)
        with
      | some found => simp [GetVMSSTypeStatically, unguardedLookup, hm, h1, h2]
      | none => simp [GetVMSSTypeStatically, unguardedLookup, hm, h1, h2]
  | false =>
    have hs : ReplaceAllString name = name := ReplaceAllString_of_no_match hm
    cases h1 : scanInstanceTypes EqualFold InstanceTypes range name with
    | some found => simp [GetVMSSTypeStatically, unguardedLookup, hm, h1]
    | none => simp [GetVMSSTypeStatically, unguardedLookup, hm, hs, h1]

/-- C14: for every catalog and every SKU name, `GetVMSSTypeStatically` returns exactly
one of a result and an error: the returned pointer is nil if and only if the returned
error is non-nil; and a non-nil result is what the catalog stores under a key equal,
under `EqualFold`, to the name or to the promo-stripped name. Nothing is assumed of
the stored values, so the statement covers the catalogs whose values are all
non-nil. -/
theorem static_result_xor_error (EqualFold : GoString → GoString → Bool)
    (InstanceTypes : GoString → Option InstanceType) (range1 range2 : List GoString)
    (name : GoString) :
    ((GetVMSSTypeStatically EqualFold InstanceTypes range1 range2 name).1 = none ↔
        (GetVMSSTypeStatically EqualFold InstanceTypes range1 range2 name).2 ≠ none) ∧
      ∀ found,
        (GetVMSSTypeStatically EqualFold InstanceTypes range1 range2 name).1 = some found →
        (∃ k ∈ range1, EqualFold k name = true ∧ InstanceTypes k = some found) ∨
          (∃ k ∈ range2, EqualFold k (ReplaceAllString name) = true ∧
            InstanceTypes k = some found) := by
  cases h1 : scanInstanceTypes EqualFold InstanceTypes range1 name with
  | some v =>
    have hres : GetVMSSTypeStatically EqualFold InstanceTypes range1 range2 name
        = (some v, none) := by
      simp [GetVMSSTypeStatically, h1]
    rw [hres]
    refine ⟨by simp, fun found hf => Or.inl ?_⟩
    have hv : v = found := by simpa using hf
    exact scanInstanceTypes_some EqualFold InstanceTypes range1 name found (hv ▸ h1)
  | none =>
    cases hm : MatchString name with
    | false =>
      have hres : GetVMSSTypeStatically EqualFold InstanceTypes range1 range2 name
          = (none, some (GoError.notSupported name)) := by
        simp [GetVMSSTypeStatically, h1, hm]
      rw [hres]
      exact ⟨by simp, fun found hf => by simp at hf⟩
    | true =>
      cases h2 : scanInstanceTypes EqualFold InstanceTypes range2 (ReplaceAllString name)
        with
      | none =>
        have hres : GetVMSSTypeStatically EqualFold InstanceTypes range1 range2 name
            = (none, some (GoError.notSupported name)) := by
          simp [GetVMSSTypeStatically, h1, hm, h2]
        rw [hres]
        exact ⟨by simp, fun found hf => by simp at hf⟩
      | some v =>
        have hres : GetVMSSTypeStatically EqualFold InstanceTypes range1 range2 name
            = (some v, none) := by
          simp [GetVMSSTypeStatically, h1, hm, h2]
        rw [hres]
        refine ⟨by simp, fun found hf => Or.inr ?_⟩
        have hv : v = found := by simpa using hf
        exact scanInstanceTypes_some EqualFold InstanceTypes range2
          (ReplaceAllString name) found (hv ▸ h2)

/-! ## The dynamic resolver: validity of the result, exact hit -/

theorem extractFacts_err_none (sku : SKU) (vmssType : InstanceType) (calls : List Call)
    (h : (extractFacts sku vmssType calls).err = none) :
    sku.VCPU.2 = none ∧ sku.GPU.2 = none ∧ sku.Memory.2 = none := by
  unfold extractFacts at h
  cases hv : sku.VCPU.2 <;> cases hg : sku.GPU.2 <;> cases hm : sku.Memory.2 <;>
    simp [hv, hg, hm] at h ⊢

/-- The extraction steps add no cache lookup to the calls. -/
theorem extractFacts_filter_isGet (sku : SKU) (vmssType : InstanceType)
    (calls : List Call) :
    (extractFacts sku vmssType calls).calls.filter Call.isGet
      = calls.filter Call.isGet := by
  unfold extractFacts
  cases sku.VCPU.2 <;> cases sku.GPU.2 <;> cases sku.Memory.2 <;>
    simp [List.filter_append, Call.isGet]

/-- A call that ends with a nil error has located a descriptor. -/
theorem located_of_err_none (NewCache : GoString → Cache × Option GoError)
    (template : Template) (herr : (GetVMSSTypeDynamically NewCache template).err = none) :
    ∃ sku, Located NewCache template sku := by
  cases hc : (NewCache template.Location).2 with
  | some e => simp [GetVMSSTypeDynamically, hc] at herr
  | none =>
    cases h1 : ((NewCache template.Location).1.Get template.SkuName VirtualMachines
        template.Location).2 with
    | none =>
      exact ⟨((NewCache template.Location).1.Get template.SkuName VirtualMachines
        template.Location).1, hc, Or.inl (Prod.ext rfl h1)⟩
    | some e1 =>
      cases h2 : ((NewCache template.Location).1.Get (ReplaceAllString template.SkuName)
          VirtualMachines template.Location).2 with
      | some e2 => simp [GetVMSSTypeDynamically, hc, h1, h2] at herr
      | none =>
        exact ⟨((NewCache template.Location).1.Get (ReplaceAllString template.SkuName)
          VirtualMachines template.Location).1, hc,
          Or.inr ⟨by simp [h1], Prod.ext rfl h2⟩⟩

/-- C12 (amended): every `InstanceType` that `GetVMSSTypeDynamically` returns with a
nil error comes from a located descriptor and copies it without validation: `VCPU`
is the count the descriptor reports and `MemoryMb` is `int64(memoryGb) * 1024`. It
is a valid resolution (`VCPU > 0` and `MemoryMb ≥ 0`) whenever the descriptor reports
a vCPU count greater than 0 and a memory value `m` with `0 ≤ m < 2 ^ 53`. -/
theorem dynamic_result_valid (NewCache : GoString → Cache × Option GoError)
    (template : Template) (herr : (GetVMSSTypeDynamically NewCache template).err = none) :
    ∃ sku, Located NewCache template sku ∧
      (GetVMSSTypeDynamically NewCache template).vmssType.VCPU = sku.VCPU.1 ∧
      (GetVMSSTypeDynamically NewCache template).vmssType.MemoryMb
        = wrapInt64 (float64ToInt64 sku.Memory.1 * 1024) ∧
      (0 < sku.VCPU.1 → 0 ≤ sku.Memory.1 → sku.Memory.1 < 2 ^ 53 →
        0 < (GetVMSSTypeDynamically NewCache template).vmssType.VCPU ∧
          0 ≤ (GetVMSSTypeDynamically NewCache template).vmssType.MemoryMb) := by
  obtain ⟨sku, hloc⟩ := located_of_err_none NewCache template herr
  have hres := GetVMSSTypeDynamically_of_located NewCache template sku hloc
  rw [hres] at herr ⊢
  obtain ⟨hv, hg, hm⟩ := extractFacts_err_none sku _ _ herr
  have e1 : (extractFacts sku InstanceType.zero (lookupCalls NewCache template)).vmssType
      = ⟨sku.VCPU.1, wrapInt64 (float64ToInt64 sku.Memory.1 * 1024), sku.GPU.1⟩ := by
    simp [extractFacts, hv, hg, hm, InstanceType.zero]
  refine ⟨sku, hloc, by rw [e1], by rw [e1], fun h0 hm0 hm1 => ?_⟩
  rw [e1]
  refine ⟨h0, ?_⟩
  show 0 ≤ wrapInt64 (float64ToInt64 sku.Memory.1 * 1024)
  rw [memoryMb_of_range hm0 hm1]
  have : (0 : Int) ≤ ⌊sku.Memory.1⌋ := Int.floor_nonneg.mpr hm0
  omega

/-- Witness of C12 (amended): the resolution of `Standard_D4s_v3` ends with a nil
error and comes from a located descriptor. -/
theorem dynamic_result_valid_witness :
    ∃ sku, Located (fun _ => (cacheD4, none))
        ⟨"Standard_D4s_v3".toList, "westeurope".toList⟩ sku ∧
      (GetVMSSTypeDynamically (fun _ => (cacheD4, none))
        ⟨"Standard_D4s_v3".toList, "westeurope".toList⟩).vmssType.VCPU = sku.VCPU.1 ∧
      (GetVMSSTypeDynamically (fun _ => (cacheD4, none))
        ⟨"Standard_D4s_v3".toList, "westeurope".toList⟩).vmssType.MemoryMb
        = wrapInt64 (float64ToInt64 sku.Memory.1 * 1024) ∧
      (0 < sku.VCPU.1 → 0 ≤ sku.Memory.1 → sku.Memory.1 < 2 ^ 53 →
        0 < (GetVMSSTypeDynamically (fun _ => (cacheD4, none))
            ⟨"Standard_D4s_v3".toList, "westeurope".toList⟩).vmssType.VCPU ∧
          0 ≤ (GetVMSSTypeDynamically (fun _ => (cacheD4, none))
            ⟨"Standard_D4s_v3".toList, "westeurope".toList⟩).vmssType.MemoryMb) :=
  dynamic_result_valid (fun _ => (cacheD4, none))
    ⟨"Standard_D4s_v3".toList, "westeurope".toList⟩ (by decide)

/-- Counterexample to C12 as stated: a descriptor that reports 0 vCPUs and -1
gigabytes is resolved with a nil error to `VCPU = 0` and `MemoryMb = -1024`. -/
theorem dynamic_result_not_validated :
    GetVMSSTypeDynamically (fun _ => (cacheOf ⟨(0, none), (0, none), (-1, none)⟩, none))
        ⟨"Standard_D4s_v3".toList, "westeurope".toList⟩
      = ⟨⟨0, -1024, 0⟩, none,
          [Call.NewCache "westeurope".toList,
            Call.Get "Standard_D4s_v3".toList VirtualMachines "westeurope".toList,
            Call.VCPU, Call.getGpuFromSku, Call.Memory]⟩ := by
  simp [GetVMSSTypeDynamically, extractFacts, cacheOf, float64ToInt64, wrapInt64,
    InstanceType.zero]

/-- C15: for every template whose exact-name lookup hits, the result of
`GetVMSSTypeDynamically` is computed from the exact-name descriptor alone: two
constructed caches that agree on the exact name give the same result, whatever they
hold for the promo-stripped name, and the only cache lookup made is the one of the
exact name. -/
theorem dynamic_exact_hit_only (NewCache NewCache' : GoString → Cache × Option GoError)
    (template : Template)
    (hc : (NewCache template.Location).2 = none)
    (hc' : (NewCache' template.Location).2 = none)
    (hhit : ((NewCache template.Location).1.Get template.SkuName VirtualMachines
        template.Location).2 = none)
    (hagree : (NewCache template.Location).1.Get template.SkuName VirtualMachines
        template.Location
      = (NewCache' template.Location).1.Get template.SkuName VirtualMachines
        template.Location) :
    GetVMSSTypeDynamically NewCache template = GetVMSSTypeDynamically NewCache' template ∧
      (GetVMSSTypeDynamically NewCache template).calls.filter Call.isGet
        = [Call.Get template.SkuName VirtualMachines template.Location] := by
  have hhit' : ((NewCache' template.Location).1.Get template.SkuName VirtualMachines
      template.Location).2 = none := by rw [← hagree]; exact hhit
  have e : GetVMSSTypeDynamically NewCache template
      = extractFacts ((NewCache template.Location).1.Get template.SkuName VirtualMachines
          template.Location).1 InstanceType.zero
        ([Call.NewCache template.Location] ++
          [Call.Get template.SkuName VirtualMachines template.Location]) := by
    simp [GetVMSSTypeDynamically, hc, hhit]
  have e' : GetVMSSTypeDynamically NewCache' template
      = extractFacts ((NewCache template.Location).1.Get template.SkuName VirtualMachines
          template.Location).1 InstanceType.zero
        ([Call.NewCache template.Location] ++
          [Call.Get template.SkuName VirtualMachines template.Location]) := by
    simp [GetVMSSTypeDynamically, hc', hhit', hagree]
  refine ⟨by rw [e, e'], ?_⟩
  rw [e, extractFacts_filter_isGet]
  simp [Call.isGet]

/-- Witness of C15: `Standard_D4s_v3_Promo` hits in two caches that differ on
`Standard_D4s_v3`; both give the same result. -/
theorem dynamic_exact_hit_only_witness :
    GetVMSSTypeDynamically (fun _ => (cachePromoAndStandard, none))
        ⟨"Standard_D4s_v3_Promo".toList, "westeurope".toList⟩
      = GetVMSSTypeDynamically (fun _ => (cachePromoOnly, none))
        ⟨"Standard_D4s_v3_Promo".toList, "westeurope".toList⟩ :=
  (dynamic_exact_hit_only (fun _ => (cachePromoAndStandard, none))
    (fun _ => (cachePromoOnly, none))
    ⟨"Standard_D4s_v3_Promo".toList, "westeurope".toList⟩ rfl rfl (by decide)
    (by rfl)).1

end AzureInstance
